import Mathlib

/-!
# Verification of the OpenStax MCP worker

Shallow embedding of the worker logic (`src/index.ts`): the markup
extractor (`extractModules`, `extractTextContent`), the cache-or-fetch
content-resolution pipeline (`listTextbooks`, `getTextbookStructure`,
`getModuleContent`, `generatePracticeProblems`, `generateJupyterNotebook`,
`semanticSearch`, `indexTextbookForSearch`) and the protocol dispatcher
(`handleRequest`, `handleToolCall`, `errorResponse`) together with the
Cloudflare worker entry point (`workerFetch`).

External collaborators (the GitHub REST API, the XML parser's output, the
Workers AI model calls and the Vectorize index scoring) are modelled as an
explicit environment record `Env` of deterministic functions; exceptions
are modelled with `Except String`; the KV namespaces are association
lists threaded through every operation.  JavaScript `x || d` falsiness on
strings is modelled by `jsOr`; JS exceptions propagate but already
performed KV writes persist, so every operation returns its state also on
the error path.
-/

namespace OpenStaxMCP

/-- JS `o || dflt` for an optional string: `undefined`, `null` and the
empty string are falsy and give the default. -/
def jsOr (o : Option String) (dflt : String) : String :=
  match o with
  | some s => if s = "" then dflt else s
  | none => dflt

/-!  JS string primitives, modelled over the character list `String.data`
so that every operation reduces inside the kernel (several core `String`
functions are extern loops that do not). -/

/-- Does `p` occur as a contiguous subsequence of `l`?  Scanning version
of JS `String.includes`. -/
def hasSub (l p : List Char) : Bool :=
  (List.range (l.length + 1)).any (fun i => (l.drop i).take p.length == p)

/-- JS `String.includes`. -/
def strIncludes (s pat : String) : Bool :=
  hasSub s.data pat.data

/-- JS `String.startsWith`. -/
def strStartsWith (s p : String) : Bool :=
  s.data.take p.data.length == p.data

/-- JS `String.endsWith`. -/
def strEndsWith (s p : String) : Bool :=
  s.data.drop (s.data.length - p.data.length) == p.data

/-- JS `String.slice(0, n)` (and `Array.prototype.slice(0, n)` on
characters): the first `n` characters. -/
def strTake (s : String) (n : Nat) : String :=
  ⟨s.data.take n⟩

/-- Drop the first `n` characters. -/
def strDrop (s : String) (n : Nat) : String :=
  ⟨s.data.drop n⟩

/-- The whitespace class of JS `String.trim` (the characters occurring in
this data). -/
def isWs (c : Char) : Bool :=
  c == ' ' || c == '\n' || c == '\t' || c == '\r'

/-- JS `String.trim`: strip leading and trailing whitespace. -/
def strTrim (s : String) : String :=
  ⟨((s.data.dropWhile isWs).reverse.dropWhile isWs).reverse⟩

/-- JS `String.toLowerCase` (ASCII, which covers the repository names). -/
def strToLower (s : String) : String :=
  ⟨s.data.map Char.toLower⟩

/-- Global, left-to-right, non-overlapping replacement scan: at skip
count 0, a position matching the pattern emits the replacement and skips
the match; structural on the subject list.  (The worker never replaces an
empty pattern.) -/
def replaceGo (p r : List Char) : Nat → List Char → List Char
  | _, [] => []
  | skip+1, _ :: cs => replaceGo p r skip cs
  | 0, c :: cs =>
      if (c :: cs).take p.length == p then
        r ++ replaceGo p r (p.length - 1) cs
      else c :: replaceGo p r 0 cs

/-- JS `String.replace(/pat/g, repl)`. -/
def strReplaceAll (s pat repl : String) : String :=
  ⟨replaceGo pat.data repl.data 0 s.data⟩

-- ===========================================================================
-- Markup extractor: module listing extraction (src/index.ts extractModules)
-- ===========================================================================

/-- A `<module>` element as produced by xml2js: the `document` attribute
(`mod.$.document`, absent when the attribute is missing) and the list of
`<title>` child texts (`mod.title`). -/
structure ModuleElem where
  document : Option String
  title : List String
deriving Repr, DecidableEq

/-- The `Module` interface of the worker: `{ id, title }`. -/
structure ModuleRef where
  id : String
  title : String
deriving Repr, DecidableEq

/-- A node of the parsed collection tree as traversed by `extractModules`:
xml2js groups children by tag, so a node carries its `module` children and
its `subcollection` children as lists (the code's `Array.isArray` guard
wraps a lone child into a one-element list, which the list model absorbs). -/
inductive CollNode where
  | node (mods : List ModuleElem) (subs : List CollNode)
deriving Repr

/-- One step of the module loop body: a module element is emitted iff its
`$.document` attribute is present and truthy (the empty string is falsy in
JS, so `document=""` is dropped); the title falls back to `"Untitled"`
via `mod.title?.[0] || 'Untitled'`. -/
def emitMod (m : ModuleElem) : Option ModuleRef :=
  match m.document with
  | some d => if d = "" then none else some ⟨d, jsOr m.title.head? "Untitled"⟩
  | none => none

mutual

/-- `traverse` of `extractModules`: push the document-bearing module
children in encounter order, then recurse into the subcollection children
in order. -/
def traverse : CollNode → List ModuleRef
  | .node mods subs => mods.filterMap emitMod ++ traverseList subs

/-- The `for (const sub of ...) traverse(sub)` loop. -/
def traverseList : List CollNode → List ModuleRef
  | [] => []
  | s :: ss => traverse s ++ traverseList ss

end

/-- The parsed `<collection>` root: `title` child texts, `metadata`
children (opaque here; nothing downstream inspects them) and `content`
children. -/
structure Collection where
  title : List String
  metadata : List String
  content : List CollNode

/-- `extractModules`: iterate `traverse` over `collection.content`
(absent `content` means an empty list of content nodes). -/
def extractModules (c : Collection) : List ModuleRef :=
  traverseList c.content

-- ===========================================================================
-- Markup extractor: text content extraction (src/index.ts extractTextContent)
-- ===========================================================================

/-- A node of the parsed cnxml content tree as seen by
`extractTextContent`: `null`/`undefined`, a plain string, or an object
with its `para` children (grouped by xml2js) and its direct text `_`. -/
inductive CNode where
  | nullV
  | str (s : String)
  | obj (para : List CNode) (text : Option String)
deriving Repr

mutual

/-- `extractTextContent`: `''` for null input, identity on strings, and
for an object the concatenation of each paragraph child's extracted text
followed by a blank line, then the direct text, trimmed.  (`node._` being
the empty string is falsy and contributes nothing, which coincides with
appending `""`.) -/
def extractTextContent : CNode → String
  | .nullV => ""
  | .str s => s
  | .obj paras txt =>
      strTrim (extractTextList paras ++ (match txt with | some t => t | none => ""))

/-- The `for (const para of ...)` accumulation loop. -/
def extractTextList : List CNode → String
  | [] => ""
  | p :: ps => extractTextContent p ++ "\n\n" ++ extractTextList ps

end

-- ===========================================================================
-- Data model: payloads of the seven tools
-- ===========================================================================

/-- A repository record as returned by the GitHub org listing (the fields
the worker reads). -/
structure Repo where
  name : String
  html_url : String
  description : Option String
  updated_at : String
  stargazers_count : Nat
deriving Repr, DecidableEq

/-- The `Textbook` interface. -/
structure Textbook where
  id : String
  name : String
  repo : String
  description : Option String
  language : String
  updated : String
  stars : Nat
deriving Repr, DecidableEq

/-- Payload of `list_textbooks` (the object that is cached and returned). -/
structure ListResult where
  textbooks : List Textbook
  count : Nat
  from_cache : Bool
deriving Repr, DecidableEq

/-- Payload of `get_textbook_structure`: the `TextbookStructure` fields
plus the `from_cache` flag.  `metadata` holds `parsed.collection.metadata[0]`
when present (`none` models the `{}` fallback; nothing inspects it). -/
structure StructResult where
  title : String
  modules : List ModuleRef
  metadata : Option String
  from_cache : Bool
deriving Repr, DecidableEq

/-- An image reference `{ name, url }`. -/
structure ImageRef where
  name : String
  url : String
deriving Repr, DecidableEq

/-- Payload of `get_module_content`; `images` is only present when the
media listing was requested and fetched successfully. -/
structure ModuleContentResult where
  title : String
  content : String
  module_id : String
  raw_xml : String
  from_cache : Bool
  images : Option (List ImageRef)
deriving Repr, DecidableEq

/-- Payload of `generate_practice_problems`. -/
structure ProblemsResult where
  module_id : String
  difficulty : String
  problems : String
  from_cache : Bool
deriving Repr, DecidableEq

/-- A notebook cell: the markdown cells carry `{cell_type, metadata:{},
source}` and the code cells additionally the constant fields
`execution_count: null` and `outputs: []`, so the variable part is the
kind and the source lines. -/
inductive Cell where
  | markdown (source : List String)
  | code (source : List String)
deriving Repr, DecidableEq

/-- The generated notebook: cell list plus the constant metadata block
(Python 3 kernelspec) and format version numbers. -/
structure Notebook where
  cells : List Cell
  nbformat : Nat
  nbformat_minor : Nat
deriving Repr, DecidableEq

/-- Payload of `generate_jupyter_notebook`. -/
structure NotebookResult where
  notebook : Notebook
  module_id : String
  textbook_id : String
  from_cache : Bool
deriving Repr, DecidableEq

/-- An entry of the Vectorize index: embedding values plus metadata. -/
structure VecEntry where
  values : List Int
  textbook_id : String
  module_id : String
  title : String
deriving Repr, DecidableEq

/-- A match returned by `VECTORIZE.query` (score kept abstract as an
integer rank; the worker only forwards it). -/
structure SearchMatch where
  id : String
  score : Int
  textbook_id : String
  module_id : String
  title : String
deriving Repr, DecidableEq

/-- Payload of `semantic_search`. -/
structure SearchResult where
  query : String
  results : List SearchMatch
deriving Repr, DecidableEq

/-- Payload of `index_textbook_for_search`. -/
structure IndexResult where
  indexed : Nat
  total_modules : Nat
  textbook_id : String
  message : String
deriving Repr, DecidableEq

/-- A file entry of a GitHub directory listing (`name`, `download_url`). -/
structure FileEntry where
  name : String
  download_url : String
deriving Repr, DecidableEq

/-- The parsed cnxml document root: `<title>` texts and `<content>`
children (`parsed.document.title`, `parsed.document.content`). -/
structure DocumentNode where
  title : List String
  content : List CNode

-- ===========================================================================
-- External collaborators and mutable state
-- ===========================================================================

/-- The external world, fixed for a run: every outbound call of the worker
is a deterministic function here.  `Except.error` models a non-success
HTTP status (its payload is the `statusText`) or a thrown parser/model
error. -/
structure Env where
  /-- GitHub org repo listing (`api.github.com/orgs/openstax/repos`). -/
  reposResp : Except String (List Repo)
  /-- `contents/collections` directory listing per textbook id. -/
  collectionsDir : String → Except String (List FileEntry)
  /-- fetch of a collection file by `download_url` plus xml2js parse. -/
  collectionParse : String → Except String Collection
  /-- raw cnxml text per (textbook id, module id); `none` = response not ok. -/
  moduleRaw : String → String → Option String
  /-- xml2js parse of a cnxml text. -/
  docParse : String → Except String DocumentNode
  /-- media directory listing per (textbook id, module id); `none` = not ok
  (the code silently skips images then). -/
  mediaDir : String → String → Option (List FileEntry)
  /-- the generative text model call, prompt to response. -/
  aiChat : String → Except String String
  /-- the embedding model call, text to vector. -/
  aiEmbed : String → Except String (List Int)
  /-- Vectorize nearest-neighbour query: vector, topK, optional
  textbook-id filter, current index contents; scoring is external. -/
  vectorQuery : List Int → Nat → Option String → List (String × VecEntry) → List SearchMatch

/-- Association-list lookup, first binding wins (models a KV `get`). -/
def kvGet (l : List (String × α)) (k : String) : Option α :=
  (l.find? (fun p => p.1 == k)).map (fun p => p.2)

/-- KV `put`: the new binding shadows any old one. -/
def kvPut (l : List (String × α)) (k : String) (v : α) : List (String × α) :=
  (k, v) :: l

/-- The mutable stores: the three KV namespaces and the Vectorize index.
`TEXTBOOK_CACHE` holds three payload shapes under provably disjoint key
prefixes (`textbooks_list_`, `structure_`, `module_`), so it is split into
three typed regions; keys keep their full source spelling. -/
structure St where
  listingCache : List (String × ListResult)
  structCache : List (String × StructResult)
  moduleCache : List (String × ModuleContentResult)
  problemsCache : List (String × ProblemsResult)
  notebooksCache : List (String × NotebookResult)
  vectorIndex : List (String × VecEntry)
deriving Repr, DecidableEq

/-- The empty initial state. -/
def St.empty : St := ⟨[], [], [], [], [], []⟩

-- ===========================================================================
-- Tool implementations (cache-or-fetch pipeline)
-- ===========================================================================

/-- JS falsiness of an optional string argument (`!x` in the filter
guards): absent or empty means "no filter". -/
def jsFalsy (o : Option String) : Bool :=
  match o with
  | none => true
  | some s => s == ""

/-- Cache key of `list_textbooks`:
`textbooks_list_${subject || 'all'}_${language || 'all'}`. -/
def listKey (subject language : Option String) : String :=
  "textbooks_list_" ++ jsOr subject "all" ++ "_" ++ jsOr language "all"

/-- The filter-and-map over the fetched repo listing: keep `osbooks-`
repos that are not templates/playgrounds, derive the display name (strip
the `osbooks-` prefix — the JS `replace('osbooks-','')` replaces the
first occurrence, which for these names is the leading prefix — then
hyphens to spaces, drop `bundle`, trim) and infer the language tag from
name substrings. -/
def deriveTextbooks (repos : List Repo) : List Textbook :=
  (repos.filter (fun r =>
      strStartsWith r.name "osbooks-" &&
      !(strIncludes r.name "template" || strIncludes r.name "playground"))).map
    (fun r =>
      let name := strDrop r.name 8
      let lang :=
        if strIncludes name "fisica" || strIncludes name "quimica" ||
            strIncludes name "calculo" then "es"
        else if strIncludes name "fizyka" || strIncludes name "mikroekonomia" ||
            strIncludes name "psychologia" then "pl"
        else "en"
      { id := r.name
        name := strTrim (strReplaceAll (strReplaceAll name "-" " ") "bundle" "")
        repo := r.html_url
        description := r.description
        language := lang
        updated := r.updated_at
        stars := r.stargazers_count })

/-- The in-memory post-filter of the listing: optional case-insensitive
substring match of the display name against `subject`, optional exact
match of the inferred language tag against `language`. -/
def listingFilter (subject language : Option String) (t : Textbook) : Bool :=
  (jsFalsy subject || strIncludes (strToLower t.name) (strToLower (subject.getD ""))) &&
  (jsFalsy language || t.language == language.getD "")

/-- `listTextbooks`: cache hit returns the stored payload re-flagged as
cache-sourced; on a miss the repo listing is fetched, derived, filtered,
stored under the filter-specific key and returned fresh. -/
def listTextbooks (env : Env) (subject language : Option String) (st : St) :
    Except String ListResult × St :=
  let cacheKey := listKey subject language
  match kvGet st.listingCache cacheKey with
  | some cached => (.ok { cached with from_cache := true }, st)
  | none =>
    match env.reposResp with
    | .error msg => (.error ("GitHub API error: " ++ msg), st)
    | .ok repos =>
      let textbooks := (deriveTextbooks repos).filter (listingFilter subject language)
      let result : ListResult := ⟨textbooks, textbooks.length, false⟩
      (.ok result, { st with listingCache := kvPut st.listingCache cacheKey result })

/-- Assembly of the structure payload from the parsed collection:
`title[0] || 'Unknown'`, the extracted module list, `metadata[0]`
(`none` models the `{}` fallback), flagged fresh. -/
def buildStructure (coll : Collection) : StructResult :=
  ⟨jsOr coll.title.head? "Unknown", extractModules coll, coll.metadata.head?, false⟩

/-- `getTextbookStructure`: cache-or-fetch over the collections directory
listing, the `.collection.xml` file and its parse. -/
def getTextbookStructure (env : Env) (textbook_id : String) (st : St) :
    Except String StructResult × St :=
  let cacheKey := "structure_" ++ textbook_id
  match kvGet st.structCache cacheKey with
  | some cached => (.ok { cached with from_cache := true }, st)
  | none =>
    match env.collectionsDir textbook_id with
    | .error msg => (.error ("Failed to fetch collections: " ++ msg), st)
    | .ok files =>
      match files.find? (fun f => strEndsWith f.name ".collection.xml") with
      | none => (.error "No collection.xml found", st)
      | some collectionFile =>
        match env.collectionParse collectionFile.download_url with
        | .error e => (.error e, st)
        | .ok coll =>
          let result := buildStructure coll
          (.ok result, { st with structCache := kvPut st.structCache cacheKey result })

/-- The fetch-and-parse part of `getModuleContent` (no cache): raw cnxml
fetch (a non-ok response throws `Module <id> not found`), parse, text
extraction from `document.content[0]`, optional media listing. -/
def fetchModule (env : Env) (textbook_id module_id : String)
    (include_images : Bool) : Except String ModuleContentResult :=
  match env.moduleRaw textbook_id module_id with
  | none => .error ("Module " ++ module_id ++ " not found")
  | some xmlContent =>
    match env.docParse xmlContent with
    | .error e => .error e
    | .ok doc =>
      let base : ModuleContentResult :=
        { title := jsOr doc.title.head? "Untitled"
          content := extractTextContent (doc.content.headD .nullV)
          module_id := module_id
          raw_xml := xmlContent
          from_cache := false
          images := none }
      if include_images then
        match env.mediaDir textbook_id module_id with
        | some mediaFiles =>
            .ok { base with images := some (mediaFiles.map (fun f => ⟨f.name, f.download_url⟩)) }
        | none => .ok base
      else .ok base

/-- `getModuleContent`: cache-or-fetch wrapper around `fetchModule`,
keyed `module_${textbook_id}_${module_id}`; the payload (including any
image list) is cached after assembly. -/
def getModuleContent (env : Env) (textbook_id module_id : String)
    (include_images : Bool) (st : St) : Except String ModuleContentResult × St :=
  let cacheKey := "module_" ++ textbook_id ++ "_" ++ module_id
  match kvGet st.moduleCache cacheKey with
  | some cached => (.ok { cached with from_cache := true }, st)
  | none =>
    match fetchModule env textbook_id module_id include_images with
    | .error e => (.error e, st)
    | .ok content =>
      (.ok content, { st with moduleCache := kvPut st.moduleCache cacheKey content })

/-- The fixed-shape generation prompt of `generate_practice_problems`. -/
def promptFor (count : Nat) (difficulty title excerpt : String) : String :=
  "Based on this educational content, generate " ++ toString count ++ " " ++
  difficulty ++ " practice problems with detailed solutions.\n\nContent Title: " ++
  title ++ "\nContent: " ++ excerpt ++
  "\n\nFormat each problem as:\nProblem N:\n[problem statement]\n\nSolution N:\n[detailed solution]"

/-- `generatePracticeProblems`: cache-or-generate keyed
`problems_${textbook_id}_${module_id}_${difficulty}`; resolves module
content (imageless), prompts the text model, stores the raw response.
A thrown error propagates but keeps any module-cache write. -/
def generatePracticeProblems (env : Env) (textbook_id module_id difficulty : String)
    (count : Nat) (st : St) : Except String ProblemsResult × St :=
  let cacheKey := "problems_" ++ textbook_id ++ "_" ++ module_id ++ "_" ++ difficulty
  match kvGet st.problemsCache cacheKey with
  | some cached => (.ok { cached with from_cache := true }, st)
  | none =>
    match getModuleContent env textbook_id module_id false st with
    | (.error e, st1) => (.error e, st1)
    | (.ok moduleData, st1) =>
      match env.aiChat (promptFor count difficulty moduleData.title (strTake moduleData.content 3000)) with
      | .error e => (.error e, st1)
      | .ok resp =>
        let problems : ProblemsResult := ⟨module_id, difficulty, resp, false⟩
        (.ok problems, { st1 with problemsCache := kvPut st1.problemsCache cacheKey problems })

/-- The fixed four-cell notebook template: title block, import block,
content-summary excerpt (first 500 characters), placeholder exercise
block; nbformat 4.5. -/
def buildNotebook (title module_id content : String) : Notebook :=
  ⟨[ .markdown ["# " ++ title ++ "\n\n", "Generated from OpenStax MCP Server\n",
                "Module: " ++ module_id ++ "\n"],
     .code ["# Import libraries\n", "import numpy as np\n",
            "import matplotlib.pyplot as plt\n", "import pandas as pd\n"],
     .markdown ["## Content Summary\n\n", strTake content 500 ++ "...\n"],
     .code ["# Example: Basic calculations\n",
            "# TODO: Add relevant examples based on module content\n"] ],
   4, 5⟩

/-- `generateJupyterNotebook`: cache-or-generate keyed
`notebook_${textbook_id}_${module_id}`; purely templated from the
resolved module content.  `include_solutions` is accepted but read
nowhere in the body, exactly as in the source. -/
def generateJupyterNotebook (env : Env) (textbook_id module_id : String)
    (include_solutions : Bool) (st : St) : Except String NotebookResult × St :=
  let cacheKey := "notebook_" ++ textbook_id ++ "_" ++ module_id
  match kvGet st.notebooksCache cacheKey with
  | some cached => (.ok { cached with from_cache := true }, st)
  | none =>
    match getModuleContent env textbook_id module_id false st with
    | (.error e, st1) => (.error e, st1)
    | (.ok moduleData, st1) =>
      let result : NotebookResult :=
        ⟨buildNotebook moduleData.title module_id moduleData.content, module_id, textbook_id, false⟩
      (.ok result, { st1 with notebooksCache := kvPut st1.notebooksCache cacheKey result })

/-- `semanticSearch`: embed the query, query the vector index (topK =
`limit`, optional textbook filter — an empty-string id is falsy and means
no filter), forward the matches.  No cache involved. -/
def semanticSearch (env : Env) (query : String) (textbook_id : Option String)
    (limit : Nat) (st : St) : Except String SearchResult × St :=
  match env.aiEmbed query with
  | .error e => (.error e, st)
  | .ok emb =>
    let filterArg := if jsFalsy textbook_id then none else textbook_id
    (.ok ⟨query, env.vectorQuery emb limit filterArg st.vectorIndex⟩, st)

/-- One iteration of the indexing loop: resolve the module content
(imageless, through the shared cache), embed `"{title} {content0..1000}"`,
upsert one vector entry keyed `${textbook_id}_${module_id}`.  Returns
whether the whole sequence succeeded; a failure keeps the state reached
so far (the `try/catch` swallows the error after any cache write). -/
def indexOne (env : Env) (textbook_id : String) (m : ModuleRef) (st : St) : Bool × St :=
  match getModuleContent env textbook_id m.id false st with
  | (.error _, st1) => (false, st1)
  | (.ok moduleContent, st1) =>
    match env.aiEmbed (m.title ++ " " ++ strTake moduleContent.content 1000) with
    | .error _ => (false, st1)
    | .ok emb =>
      let entry : VecEntry := ⟨emb, textbook_id, m.id, m.title⟩
      (true, { st1 with vectorIndex := kvPut st1.vectorIndex (textbook_id ++ "_" ++ m.id) entry })

/-- The sequential `for` loop over the modules to index, counting the
successful iterations. -/
def indexLoop (env : Env) (textbook_id : String) :
    List ModuleRef → Nat → St → Nat × St
  | [], indexed, st => (indexed, st)
  | m :: ms, indexed, st =>
    let step := indexOne env textbook_id m st
    indexLoop env textbook_id ms (if step.1 then indexed + 1 else indexed) step.2

/-- `indexTextbookForSearch`: resolve the structure, index the first
`max_modules` modules best-effort, report the success count against the
full module count of the structure. -/
def indexTextbookForSearch (env : Env) (textbook_id : String) (max_modules : Nat)
    (st : St) : Except String IndexResult × St :=
  match getTextbookStructure env textbook_id st with
  | (.error e, st1) => (.error e, st1)
  | (.ok struct, st1) =>
    let r := indexLoop env textbook_id (struct.modules.take max_modules) 0 st1
    (.ok ⟨r.1, struct.modules.length, textbook_id,
          "Successfully indexed " ++ toString r.1 ++ " modules for semantic search"⟩,
     r.2)

-- ===========================================================================
-- Protocol dispatcher
-- ===========================================================================

/-- A JSON-RPC id: string or number. -/
inductive RpcId where
  | str (s : String)
  | num (n : Int)
deriving Repr, DecidableEq

/-- The arguments object of a `tools/call`; every field optional, the
per-tool destructuring applies the defaults. -/
structure ToolArgs where
  subject : Option String := none
  language : Option String := none
  textbook_id : Option String := none
  module_id : Option String := none
  include_images : Option Bool := none
  query : Option String := none
  limit : Option Nat := none
  difficulty : Option String := none
  count : Option Nat := none
  include_solutions : Option Bool := none
  max_modules : Option Nat := none
deriving Repr, DecidableEq

/-- `request.params` of a `tools/call`: `{ name, arguments }`. -/
structure ToolCallParams where
  name : String
  args : ToolArgs
deriving Repr, DecidableEq

/-- The `MCPRequest` envelope (the constant `jsonrpc: '2.0'` field is
elided; `params` is `none` when absent). -/
structure MCPRequest where
  id : RpcId
  method : String
  params : Option ToolCallParams
deriving Repr, DecidableEq

/-- An MCP error object. -/
structure MCPError where
  code : Int
  message : String
deriving Repr, DecidableEq

/-- The typed payload serialized into the single text content block of a
successful `tools/call` (the `JSON.stringify(result, null, 2)` step is an
injective serialization left abstract). -/
inductive ToolPayload where
  | listing (r : ListResult)
  | structureR (r : StructResult)
  | moduleR (r : ModuleContentResult)
  | searchR (r : SearchResult)
  | problemsR (r : ProblemsResult)
  | notebookR (r : NotebookResult)
  | indexR (r : IndexResult)
deriving Repr, DecidableEq

/-- One content item `{ type: 'text', text: ... }`. -/
structure ContentItem where
  type : String
  text : ToolPayload
deriving Repr, DecidableEq

/-- The uniform success envelope of `tools/call`: one content list. -/
structure ToolCallResult where
  content : List ContentItem
deriving Repr, DecidableEq

/-- A `result` value of the three recognized methods; the `initialize`
descriptor and the tool catalog are static constants. -/
inductive RpcResult where
  | initResult
  | toolsListResult
  | callResult (r : ToolCallResult)
deriving Repr, DecidableEq

/-- The `MCPResponse` envelope (constant `jsonrpc` elided). -/
structure MCPResponse where
  id : RpcId
  result : Option RpcResult
  error : Option MCPError
deriving Repr, DecidableEq

/-- `errorResponse`: error envelope echoing the given id. -/
def errorResponse (id : RpcId) (code : Int) (message : String) : MCPResponse :=
  ⟨id, none, some ⟨code, message⟩⟩

/-- A missing string argument reaches the template literals as the text
`"undefined"` (JS string interpolation of `undefined`). -/
def jsUndef (o : Option String) : String :=
  o.getD "undefined"

/-- The switch of `handleToolCall` without its envelope: run the named
tool with the defaults of its destructuring applied; `none` for a name
outside the seven cases (the switch default). -/
def runTool (env : Env) (name : String) (a : ToolArgs) (st : St) :
    Option (Except String ToolPayload × St) :=
  match name with
  | "list_textbooks" =>
    let r := listTextbooks env a.subject a.language st
    some (r.1.map .listing, r.2)
  | "get_textbook_structure" =>
    let r := getTextbookStructure env (jsUndef a.textbook_id) st
    some (r.1.map .structureR, r.2)
  | "get_module_content" =>
    let r := getModuleContent env (jsUndef a.textbook_id) (jsUndef a.module_id)
      (a.include_images.getD true) st
    some (r.1.map .moduleR, r.2)
  | "semantic_search" =>
    let r := semanticSearch env (jsUndef a.query) a.textbook_id (a.limit.getD 5) st
    some (r.1.map .searchR, r.2)
  | "generate_practice_problems" =>
    let r := generatePracticeProblems env (jsUndef a.textbook_id) (jsUndef a.module_id)
      (a.difficulty.getD "medium") (a.count.getD 5) st
    some (r.1.map .problemsR, r.2)
  | "generate_jupyter_notebook" =>
    let r := generateJupyterNotebook env (jsUndef a.textbook_id) (jsUndef a.module_id)
      (a.include_solutions.getD true) st
    some (r.1.map .notebookR, r.2)
  | "index_textbook_for_search" =>
    let r := indexTextbookForSearch env (jsUndef a.textbook_id) (a.max_modules.getD 20) st
    some (r.1.map .indexR, r.2)
  | _ => none

/-- `handleToolCall`: unknown tool name maps to −32602; a delegated
operation that throws is caught by the surrounding `try` and mapped to
−32603 with the thrown message embedded; a successful result is wrapped
in the single-text-block envelope.  Every branch echoes the request id. -/
def handleToolCall (env : Env) (id : RpcId) (p : ToolCallParams) (st : St) :
    MCPResponse × St :=
  match runTool env p.name p.args st with
  | none => (errorResponse id (-32602) ("Unknown tool: " ++ p.name), st)
  | some (.error e, st1) =>
    (errorResponse id (-32603) ("Tool execution error: " ++ e), st1)
  | some (.ok v, st1) => (⟨id, some (.callResult ⟨[⟨"text", v⟩]⟩), none⟩, st1)

/-- `handleRequest`: routes the three recognized methods; an unknown
method maps to −32601.  A `tools/call` whose `params` is absent throws a
TypeError at the destructuring (before the inner `try`), which the outer
`catch` maps to −32603 (message abstracted as the engines TypeError
text).  Total: an exception never escapes to the transport layer. -/
def handleRequest (env : Env) (req : MCPRequest) (st : St) : MCPResponse × St :=
  match req.method with
  | "initialize" => (⟨req.id, some .initResult, none⟩, st)
  | "tools/list" => (⟨req.id, some .toolsListResult, none⟩, st)
  | "tools/call" =>
    match req.params with
    | some p => handleToolCall env req.id p st
    | none =>
      (errorResponse req.id (-32603)
        "Internal error: Cannot destructure property name of request.params as it is undefined.", st)
  | m => (errorResponse req.id (-32601) ("Method not found: " ++ m), st)

-- ===========================================================================
-- Worker entry point (transport boundary)
-- ===========================================================================

/-- HTTP method of an incoming worker request. -/
inductive HttpMethod where
  | options
  | get
  | post
  | other (s : String)
deriving Repr, DecidableEq

/-- An incoming worker request; `body` is the JSON-parsed MCP request,
`none` when `request.json()` would throw. -/
structure HttpReq where
  method : HttpMethod
  url : String
  body : Option MCPRequest
deriving Repr, DecidableEq

/-- The body of an outgoing worker response: the null preflight body, the
constant health descriptor, an MCP envelope, the constant −32700
parse-error envelope (id null), or the constant informational default. -/
inductive RespBody where
  | empty
  | health
  | mcp (r : MCPResponse)
  | parseError
  | info
deriving Repr, DecidableEq

/-- An outgoing worker response. -/
structure HttpResp where
  status : Nat
  headers : List (String × String)
  body : RespBody
deriving Repr, DecidableEq

/-- The preflight header set. -/
def corsHeaders : List (String × String) :=
  [("Access-Control-Allow-Origin", "*"),
   ("Access-Control-Allow-Methods", "POST, GET, OPTIONS"),
   ("Access-Control-Allow-Headers", "Content-Type")]

/-- The worker `fetch` entry point: OPTIONS preflight first, then the
`/health` route, then the POST MCP route (parse failure maps to the 400
parse-error response), else the default informational response. -/
def workerFetch (env : Env) (req : HttpReq) (st : St) : HttpResp × St :=
  match req.method with
  | .options => (⟨200, corsHeaders, .empty⟩, st)
  | m =>
    if strEndsWith req.url "/health" then
      (⟨200, [("Content-Type", "application/json")], .health⟩, st)
    else
      match m with
      | .post =>
        match req.body with
        | some mcpRequest =>
          let r := handleRequest env mcpRequest st
          (⟨200, [("Content-Type", "application/json"), ("Access-Control-Allow-Origin", "*")],
            .mcp r.1⟩, r.2)
        | none => (⟨400, [("Content-Type", "application/json")], .parseError⟩, st)
      | _ => (⟨200, [("Content-Type", "application/json")], .info⟩, st)

-- ===========================================================================
-- Helper lemmas
-- ===========================================================================

theorem kvGet_put_self (l : List (String × α)) (k : String) (v : α) :
    kvGet (kvPut l k v) k = some v := by
  simp [kvGet, kvPut, List.find?]

theorem kvGet_put_ne (l : List (String × α)) (k k2 : String) (v : α) (h : k2 ≠ k) :
    kvGet (kvPut l k v) k2 = kvGet l k2 := by
  have hb : (k == k2) = false := by
    simp only [beq_eq_false_iff_ne]
    exact fun he => h he.symm
  simp [kvGet, kvPut, List.find?, hb]

theorem emitMod_id_ne (e : ModuleElem) (m : ModuleRef) (h : emitMod e = some m) :
    m.id ≠ "" := by
  unfold emitMod at h
  cases hd : e.document with
  | none => rw [hd] at h; cases h
  | some d =>
    rw [hd] at h
    by_cases hde : d = ""
    · simp [hde] at h
    · simp [hde] at h
      rw [← h]
      exact hde

theorem traverseList_eq_flatten (l : List CollNode) :
    traverseList l = (l.map traverse).flatten := by
  induction l with
  | nil => simp [traverseList]
  | cons s ss ih => simp [traverseList, ih]

mutual

theorem mem_traverse_id_ne : ∀ (n : CollNode), ∀ m ∈ traverse n, m.id ≠ ""
  | .node mods subs => by
    intro m hm
    simp only [traverse] at hm
    rcases List.mem_append.mp hm with h | h
    · obtain ⟨e, _, he⟩ := List.mem_filterMap.mp h
      exact emitMod_id_ne e m he
    · exact mem_traverseList_id_ne subs m h

theorem mem_traverseList_id_ne : ∀ (l : List CollNode), ∀ m ∈ traverseList l, m.id ≠ ""
  | [] => by intro m hm; simp [traverseList] at hm
  | s :: ss => by
    intro m hm
    simp only [traverseList] at hm
    rcases List.mem_append.mp hm with h | h
    · exact mem_traverse_id_ne s m h
    · exact mem_traverseList_id_ne ss m h

end

theorem extractTextList_eq_fold (l : List CNode) :
    extractTextList l =
      (l.map (fun p => extractTextContent p ++ "\n\n")).foldr (· ++ ·) "" := by
  induction l with
  | nil => simp [extractTextList]
  | cons p ps ih => simp [extractTextList, ih]

-- ===========================================================================
-- Claim theorems
-- ===========================================================================

/-- C1: every `tools/call` dispatched through `handleToolCall` — success
envelope, unknown-tool error, or a delegated operation throwing — answers
with the id of the request; and `handleRequest` echoes the request id on
every recognized or unrecognized method. -/
theorem c1_response_id_echoes_request :
    (∀ (env : Env) (id : RpcId) (p : ToolCallParams) (st : St),
      ((handleToolCall env id p st).1).id = id) ∧
    (∀ (env : Env) (req : MCPRequest) (st : St),
      ((handleRequest env req st).1).id = req.id) := by
  have hcall : ∀ (env : Env) (id : RpcId) (p : ToolCallParams) (st : St),
      ((handleToolCall env id p st).1).id = id := by
    intro env id p st
    unfold handleToolCall
    rcases hrun : runTool env p.name p.args st with _ | ⟨r, st1⟩
    · simp [errorResponse]
    · cases r <;> simp [errorResponse]
  refine ⟨hcall, ?_⟩
  intro env req st
  unfold handleRequest
  split
  · rfl
  · rfl
  · split
    · exact hcall env req.id _ st
    · simp [errorResponse]
  · simp [errorResponse]

/-- C5: an error thrown by a delegated tool operation is caught at the
dispatch boundary and answered as code −32603 with the thrown message
embedded after `"Tool execution error: "`; and for a `tools/call` request
the dispatcher result is exactly the `handleToolCall` value — an
`MCPResponse`, never an escaping exception. -/
theorem c5_delegated_exception_converted :
    (∀ (env : Env) (name : String) (a : ToolArgs) (id : RpcId) (st : St)
      (e : String) (stE : St),
      runTool env name a st = some (.error e, stE) →
      handleToolCall env id ⟨name, a⟩ st =
        (errorResponse id (-32603) ("Tool execution error: " ++ e), stE)) ∧
    (∀ (env : Env) (req : MCPRequest) (p : ToolCallParams) (st : St),
      req.method = "tools/call" → req.params = some p →
      handleRequest env req st = handleToolCall env req.id p st) := by
  constructor
  · intro env name a id st e stE h
    unfold handleToolCall
    rw [h]
  · intro env req p st hm hp
    unfold handleRequest
    rw [hm, hp]
    rfl

/-- An environment in which every external call fails; the repo listing
fails with statusText `boom`. -/
def envNoop : Env where
  reposResp := .error "boom"
  collectionsDir := fun _ => .error "down"
  collectionParse := fun _ => .error "bad xml"
  moduleRaw := fun _ _ => none
  docParse := fun _ => .error "bad xml"
  mediaDir := fun _ _ => none
  aiChat := fun _ => .error "model down"
  aiEmbed := fun _ => .error "model down"
  vectorQuery := fun _ _ _ _ => []

theorem c5_delegated_exception_converted_witness :
    handleToolCall envNoop (RpcId.num 7) ⟨"list_textbooks", {}⟩ St.empty =
      (errorResponse (RpcId.num 7) (-32603) "Tool execution error: GitHub API error: boom",
       St.empty) ∧
    handleRequest envNoop ⟨RpcId.num 7, "tools/call", some ⟨"list_textbooks", {}⟩⟩ St.empty =
      handleToolCall envNoop (RpcId.num 7) ⟨"list_textbooks", {}⟩ St.empty := by
  constructor
  · exact c5_delegated_exception_converted.1 envNoop "list_textbooks" {} (RpcId.num 7)
      St.empty "GitHub API error: boom" St.empty rfl
  · exact c5_delegated_exception_converted.2 envNoop
      ⟨RpcId.num 7, "tools/call", some ⟨"list_textbooks", {}⟩⟩ ⟨"list_textbooks", {}⟩
      St.empty rfl rfl

/-- Does a worker response carry the permissive cross-origin header? -/
def hasCors (r : HttpResp) : Bool :=
  r.headers.any (fun p => p.1 == "Access-Control-Allow-Origin")

/-- C7 counterexample: the `/health` response carries only
`Content-Type` — no `Access-Control-Allow-Origin` header — refuting the
claim that every worker response carries the permissive cross-origin
header. -/
theorem c7_health_response_lacks_cors :
    (workerFetch envNoop ⟨.get, "https://w.example/health", none⟩ St.empty).1.headers =
      [("Content-Type", "application/json")] ∧
    hasCors (workerFetch envNoop ⟨.get, "https://w.example/health", none⟩ St.empty).1 = false := by
  constructor
  · rfl
  · rfl

/-- The routes that actually emit the cross-origin header: the OPTIONS
preflight, and the POST MCP route when the body parses and the URL is not
the health route. -/
def corsExpected (req : HttpReq) : Bool :=
  match req.method with
  | .options => true
  | .post => !(strEndsWith req.url "/health") && req.body.isSome
  | _ => false

/-- C7 amended: exactly the CORS preflight response and the MCP responses
(success and error envelopes of a parsed POST body) carry the permissive
cross-origin header; the health, parse-error and default informational
responses carry only `Content-Type`. -/
theorem c7_amended_cors_on_preflight_and_mcp_only :
    ∀ (env : Env) (req : HttpReq) (st : St),
      hasCors (workerFetch env req st).1 = corsExpected req := by
  intro env req st
  rcases req with ⟨method, url, body⟩
  cases method <;>
    rcases h : strEndsWith url "/health" with _ | _ <;>
    cases body <;>
    simp [workerFetch, corsExpected, hasCors, corsHeaders, h]

/-- C9: `extractTextContent` is total by construction (it is a plain
recursive function into `String`); null or absent input yields the empty
string, a plain string is returned as is, and a tree node yields each
paragraph childs extracted text followed by a blank line, concatenated,
followed by the nodes direct text, with the final result trimmed. -/
theorem c9_extract_text_total_and_shape :
    extractTextContent .nullV = "" ∧
    (∀ s : String, extractTextContent (.str s) = s) ∧
    (∀ (paras : List CNode) (txt : Option String),
      extractTextContent (.obj paras txt) =
        strTrim (((paras.map (fun p => extractTextContent p ++ "\n\n")).foldr (· ++ ·) "") ++
          txt.getD "")) := by
  refine ⟨rfl, fun s => rfl, ?_⟩
  intro paras txt
  cases txt <;> simp only [extractTextContent, extractTextList_eq_fold, Option.getD]

/-- C10: `generate_jupyter_notebook` ignores `include_solutions`: two
calls whose arguments differ only in that flag return the same payload
and leave the same state, both at the operation itself and through the
dispatcher (the flag enters neither the notebook cells nor the cache
key). -/
theorem c10_notebook_independent_of_include_solutions :
    (∀ (env : Env) (tb mid : String) (b1 b2 : Bool) (st : St),
      generateJupyterNotebook env tb mid b1 st = generateJupyterNotebook env tb mid b2 st) ∧
    (∀ (env : Env) (id : RpcId) (a : ToolArgs) (b1 b2 : Option Bool) (st : St),
      handleToolCall env id ⟨"generate_jupyter_notebook", { a with include_solutions := b1 }⟩ st =
      handleToolCall env id ⟨"generate_jupyter_notebook", { a with include_solutions := b2 }⟩ st) := by
  constructor
  · intro env tb mid b1 b2 st
    rfl
  · intro env id a b1 b2 st
    rfl

/-- The collection of the specs order example: one content root holding
subcollection A with modules m1, m2 and subcollection B with module m3. -/
def exampleCollection : Collection :=
  ⟨["Book"], [],
   [.node []
      [.node [⟨some "m1", ["T1"]⟩, ⟨some "m2", ["T2"]⟩] [],
       .node [⟨some "m3", ["T3"]⟩] []]]⟩

/-- C2: at each node of the parsed collection tree, `traverse` emits the
document-bearing module children in encounter order and then recurses
depth-first into the subcollection children in order; on the specs
example `[A → [m1, m2], B → [m3]]` extraction yields exactly
`[m1, m2, m3]`. -/
theorem c2_extraction_document_order :
    (∀ (mods : List ModuleElem) (subs : List CollNode),
      traverse (.node mods subs) = mods.filterMap emitMod ++ (subs.map traverse).flatten) ∧
    extractModules exampleCollection = [⟨"m1", "T1"⟩, ⟨"m2", "T2"⟩, ⟨"m3", "T3"⟩] := by
  constructor
  · intro mods subs
    simp [traverse, traverseList_eq_flatten]
  · simp [exampleCollection, extractModules, traverseList, traverse, emitMod, jsOr]

/-- C8: every module reference produced by extraction carries a nonempty
id (module elements without the document attribute, or with an empty one,
are dropped, never aborting); a missing or empty upstream title defaults
to `"Untitled"`; and the modules field built into the structure payload
is always the extracted list — the empty list when no content nodes are
present, never an absent value. -/
theorem c8_module_ref_invariants :
    (∀ (c : Collection), ∀ m ∈ extractModules c, m.id ≠ "") ∧
    (∀ (e : ModuleElem), e.document = none → emitMod e = none) ∧
    (∀ (e : ModuleElem) (d : String), e.document = some d → d ≠ "" →
      (e.title.head? = none ∨ e.title.head? = some "") →
      emitMod e = some ⟨d, "Untitled"⟩) ∧
    (∀ (t md : List String), extractModules ⟨t, md, []⟩ = []) ∧
    (∀ (coll : Collection), (buildStructure coll).modules = extractModules coll) := by
  refine ⟨?_, ?_, ?_, ?_, fun coll => rfl⟩
  · intro c m hm
    exact mem_traverseList_id_ne c.content m hm
  · intro e h
    unfold emitMod
    rw [h]
  · intro e d hd hne ht
    unfold emitMod
    rw [hd]
    rcases ht with h | h <;> simp [hne, h, jsOr]
  · intro t md
    simp [extractModules, traverseList]

theorem c8_module_ref_invariants_witness :
    (⟨"m1", "T1"⟩ : ModuleRef).id ≠ "" ∧
    emitMod ⟨some "m9", []⟩ = some ⟨"m9", "Untitled"⟩ := by
  constructor
  · exact c8_module_ref_invariants.1 exampleCollection ⟨"m1", "T1"⟩
      (by simp [exampleCollection, extractModules, traverseList, traverse, emitMod, jsOr])
  · exact c8_module_ref_invariants.2.2.1 ⟨some "m9", []⟩ "m9" rfl (by decide) (Or.inl rfl)

-- ===========================================================================
-- C3: cache round trips
-- ===========================================================================

theorem fetchModule_fresh (env : Env) (tb mid : String) (inc : Bool)
    (c : ModuleContentResult) (h : fetchModule env tb mid inc = .ok c) :
    c.from_cache = false := by
  cases hraw : env.moduleRaw tb mid with
  | none =>
    simp only [fetchModule, hraw] at h
    exact Except.noConfusion h
  | some xml =>
    cases hp : env.docParse xml with
    | error e =>
      simp only [fetchModule, hraw, hp] at h
      exact Except.noConfusion h
    | ok doc =>
      cases inc with
      | false =>
        simp only [fetchModule, hraw, hp, Bool.false_eq_true, if_false,
          Except.ok.injEq] at h
        rw [← h]
      | true =>
        cases hm : env.mediaDir tb mid with
        | none =>
          simp only [fetchModule, hraw, hp, if_true, hm, Except.ok.injEq] at h
          rw [← h]
        | some files =>
          simp only [fetchModule, hraw, hp, if_true, hm, Except.ok.injEq] at h
          rw [← h]

theorem listTextbooks_twice (env : Env) (s l : Option String) (st : St)
    (v : ListResult) (st2 : St)
    (hmiss : kvGet st.listingCache (listKey s l) = none)
    (h : listTextbooks env s l st = (.ok v, st2)) :
    v.from_cache = false ∧
    listTextbooks env s l st2 = (.ok { v with from_cache := true }, st2) := by
  cases hr : env.reposResp with
  | error m =>
    simp only [listTextbooks, hmiss, hr] at h
    exact Except.noConfusion (congrArg Prod.fst h)
  | ok repos =>
    simp only [listTextbooks, hmiss, hr, Prod.mk.injEq, Except.ok.injEq] at h
    obtain ⟨h1, h2⟩ := h
    subst h1
    subst h2
    refine ⟨rfl, ?_⟩
    simp only [listTextbooks, kvGet_put_self]

theorem getTextbookStructure_twice (env : Env) (tb : String) (st : St)
    (v : StructResult) (st2 : St)
    (hmiss : kvGet st.structCache ("structure_" ++ tb) = none)
    (h : getTextbookStructure env tb st = (.ok v, st2)) :
    v.from_cache = false ∧
    getTextbookStructure env tb st2 = (.ok { v with from_cache := true }, st2) := by
  cases hc : env.collectionsDir tb with
  | error m =>
    simp only [getTextbookStructure, hmiss, hc] at h
    exact Except.noConfusion (congrArg Prod.fst h)
  | ok files =>
    cases hfind : files.find? (fun f => strEndsWith f.name ".collection.xml") with
    | none =>
      simp only [getTextbookStructure, hmiss, hc, hfind] at h
      exact Except.noConfusion (congrArg Prod.fst h)
    | some cf =>
      cases hp : env.collectionParse cf.download_url with
      | error e =>
        simp only [getTextbookStructure, hmiss, hc, hfind, hp] at h
        exact Except.noConfusion (congrArg Prod.fst h)
      | ok coll =>
        simp only [getTextbookStructure, hmiss, hc, hfind, hp, Prod.mk.injEq,
          Except.ok.injEq] at h
        obtain ⟨h1, h2⟩ := h
        subst h1
        subst h2
        refine ⟨rfl, ?_⟩
        simp only [getTextbookStructure, kvGet_put_self]

theorem getModuleContent_twice (env : Env) (tb mid : String) (inc : Bool) (st : St)
    (v : ModuleContentResult) (st2 : St)
    (hmiss : kvGet st.moduleCache ("module_" ++ tb ++ "_" ++ mid) = none)
    (h : getModuleContent env tb mid inc st = (.ok v, st2)) :
    v.from_cache = false ∧
    getModuleContent env tb mid inc st2 = (.ok { v with from_cache := true }, st2) := by
  cases hf : fetchModule env tb mid inc with
  | error e =>
    simp only [getModuleContent, hmiss, hf] at h
    exact Except.noConfusion (congrArg Prod.fst h)
  | ok c =>
    simp only [getModuleContent, hmiss, hf, Prod.mk.injEq, Except.ok.injEq] at h
    obtain ⟨h1, h2⟩ := h
    subst h1
    subst h2
    refine ⟨fetchModule_fresh env tb mid inc c hf, ?_⟩
    simp only [getModuleContent, kvGet_put_self]

theorem generatePracticeProblems_twice (env : Env) (tb mid diff : String) (count : Nat)
    (st : St) (v : ProblemsResult) (st2 : St)
    (hmiss : kvGet st.problemsCache ("problems_" ++ tb ++ "_" ++ mid ++ "_" ++ diff) = none)
    (h : generatePracticeProblems env tb mid diff count st = (.ok v, st2)) :
    v.from_cache = false ∧
    generatePracticeProblems env tb mid diff count st2 =
      (.ok { v with from_cache := true }, st2) := by
  rcases hmc : getModuleContent env tb mid false st with ⟨mr, st1⟩
  cases mr with
  | error e =>
    simp only [generatePracticeProblems, hmiss, hmc] at h
    exact Except.noConfusion (congrArg Prod.fst h)
  | ok md =>
    cases hai : env.aiChat (promptFor count diff md.title (strTake md.content 3000)) with
    | error e =>
      simp only [generatePracticeProblems, hmiss, hmc, hai] at h
      exact Except.noConfusion (congrArg Prod.fst h)
    | ok resp =>
      simp only [generatePracticeProblems, hmiss, hmc, hai, Prod.mk.injEq,
        Except.ok.injEq] at h
      obtain ⟨h1, h2⟩ := h
      subst h1
      subst h2
      refine ⟨rfl, ?_⟩
      simp only [generatePracticeProblems, kvGet_put_self]

theorem generateJupyterNotebook_twice (env : Env) (tb mid : String) (sol : Bool)
    (st : St) (v : NotebookResult) (st2 : St)
    (hmiss : kvGet st.notebooksCache ("notebook_" ++ tb ++ "_" ++ mid) = none)
    (h : generateJupyterNotebook env tb mid sol st = (.ok v, st2)) :
    v.from_cache = false ∧
    generateJupyterNotebook env tb mid sol st2 =
      (.ok { v with from_cache := true }, st2) := by
  rcases hmc : getModuleContent env tb mid false st with ⟨mr, st1⟩
  cases mr with
  | error e =>
    simp only [generateJupyterNotebook, hmiss, hmc] at h
    exact Except.noConfusion (congrArg Prod.fst h)
  | ok md =>
    simp only [generateJupyterNotebook, hmiss, hmc, Prod.mk.injEq, Except.ok.injEq] at h
    obtain ⟨h1, h2⟩ := h
    subst h1
    subst h2
    refine ⟨rfl, ?_⟩
    simp only [generateJupyterNotebook, kvGet_put_self]

/-- C3: for each of the five cache-backed operations, a first call whose
key is absent from its cache region returns a payload flagged fresh, and
an immediate second call with the same logical parameters returns the
same payload re-flagged as cache-sourced, without further state change. -/
theorem c3_cache_backed_operations_idempotent :
    (∀ (env : Env) (s l : Option String) (st : St) (v : ListResult) (st2 : St),
      kvGet st.listingCache (listKey s l) = none →
      listTextbooks env s l st = (.ok v, st2) →
      v.from_cache = false ∧
      listTextbooks env s l st2 = (.ok { v with from_cache := true }, st2)) ∧
    (∀ (env : Env) (tb : String) (st : St) (v : StructResult) (st2 : St),
      kvGet st.structCache ("structure_" ++ tb) = none →
      getTextbookStructure env tb st = (.ok v, st2) →
      v.from_cache = false ∧
      getTextbookStructure env tb st2 = (.ok { v with from_cache := true }, st2)) ∧
    (∀ (env : Env) (tb mid : String) (inc : Bool) (st : St)
      (v : ModuleContentResult) (st2 : St),
      kvGet st.moduleCache ("module_" ++ tb ++ "_" ++ mid) = none →
      getModuleContent env tb mid inc st = (.ok v, st2) →
      v.from_cache = false ∧
      getModuleContent env tb mid inc st2 = (.ok { v with from_cache := true }, st2)) ∧
    (∀ (env : Env) (tb mid diff : String) (count : Nat) (st : St)
      (v : ProblemsResult) (st2 : St),
      kvGet st.problemsCache ("problems_" ++ tb ++ "_" ++ mid ++ "_" ++ diff) = none →
      generatePracticeProblems env tb mid diff count st = (.ok v, st2) →
      v.from_cache = false ∧
      generatePracticeProblems env tb mid diff count st2 =
        (.ok { v with from_cache := true }, st2)) ∧
    (∀ (env : Env) (tb mid : String) (sol : Bool) (st : St)
      (v : NotebookResult) (st2 : St),
      kvGet st.notebooksCache ("notebook_" ++ tb ++ "_" ++ mid) = none →
      generateJupyterNotebook env tb mid sol st = (.ok v, st2) →
      v.from_cache = false ∧
      generateJupyterNotebook env tb mid sol st2 =
        (.ok { v with from_cache := true }, st2)) :=
  ⟨listTextbooks_twice, getTextbookStructure_twice, getModuleContent_twice,
   generatePracticeProblems_twice, generateJupyterNotebook_twice⟩

/-- A fully successful environment: one public `osbooks-` repository,
one collection file with a single module, resolvable module content, no
media directory. -/
def envW : Env where
  reposResp := .ok [⟨"osbooks-college-physics-bundle",
    "https://github.com/openstax/osbooks-college-physics-bundle",
    some "Physics text", "2024-01-01T00:00:00Z", 5⟩]
  collectionsDir := fun _ => .ok [⟨"physics.collection.xml", "https://dl.example/c.xml"⟩]
  collectionParse := fun _ => .ok ⟨["College Physics"], [],
    [.node [⟨some "m1", ["Intro"]⟩] []]⟩
  moduleRaw := fun _ _ => some "<document/>"
  docParse := fun _ => .ok ⟨["Intro"], [.obj [] (some "Hello world")]⟩
  mediaDir := fun _ _ => none
  aiChat := fun _ => .ok "Problem 1: compute."
  aiEmbed := fun _ => .ok [1, 2]
  vectorQuery := fun _ _ _ _ => []

def listRunW : Except String ListResult × St := listTextbooks envW none none St.empty

def listResW : ListResult :=
  match listRunW.1 with
  | .ok v => v
  | .error _ => ⟨[], 0, true⟩

def structRunW : Except String StructResult × St :=
  getTextbookStructure envW "osbooks-college-physics-bundle" St.empty

def structResW : StructResult :=
  match structRunW.1 with
  | .ok v => v
  | .error _ => ⟨"", [], none, true⟩

def moduleRunW : Except String ModuleContentResult × St :=
  getModuleContent envW "osbooks-college-physics-bundle" "m1" true St.empty

def moduleResW : ModuleContentResult :=
  match moduleRunW.1 with
  | .ok v => v
  | .error _ => ⟨"", "", "", "", true, none⟩

def probRunW : Except String ProblemsResult × St :=
  generatePracticeProblems envW "osbooks-college-physics-bundle" "m1" "medium" 5 St.empty

def probResW : ProblemsResult :=
  match probRunW.1 with
  | .ok v => v
  | .error _ => ⟨"", "", "", true⟩

def nbRunW : Except String NotebookResult × St :=
  generateJupyterNotebook envW "osbooks-college-physics-bundle" "m1" true St.empty

def nbResW : NotebookResult :=
  match nbRunW.1 with
  | .ok v => v
  | .error _ => ⟨⟨[], 0, 0⟩, "", "", true⟩

theorem c3_cache_backed_operations_idempotent_witness :
    (listResW.from_cache = false ∧
      listTextbooks envW none none listRunW.2 =
        (.ok { listResW with from_cache := true }, listRunW.2)) ∧
    (structResW.from_cache = false ∧
      getTextbookStructure envW "osbooks-college-physics-bundle" structRunW.2 =
        (.ok { structResW with from_cache := true }, structRunW.2)) ∧
    (moduleResW.from_cache = false ∧
      getModuleContent envW "osbooks-college-physics-bundle" "m1" true moduleRunW.2 =
        (.ok { moduleResW with from_cache := true }, moduleRunW.2)) ∧
    (probResW.from_cache = false ∧
      generatePracticeProblems envW "osbooks-college-physics-bundle" "m1" "medium" 5 probRunW.2 =
        (.ok { probResW with from_cache := true }, probRunW.2)) ∧
    (nbResW.from_cache = false ∧
      generateJupyterNotebook envW "osbooks-college-physics-bundle" "m1" true nbRunW.2 =
        (.ok { nbResW with from_cache := true }, nbRunW.2)) := by
  refine ⟨?_, ?_, ?_, ?_, ?_⟩
  · exact c3_cache_backed_operations_idempotent.1 envW none none St.empty
      listResW listRunW.2 rfl rfl
  · exact c3_cache_backed_operations_idempotent.2.1 envW "osbooks-college-physics-bundle"
      St.empty structResW structRunW.2 rfl rfl
  · exact c3_cache_backed_operations_idempotent.2.2.1 envW "osbooks-college-physics-bundle"
      "m1" true St.empty moduleResW moduleRunW.2 rfl rfl
  · exact c3_cache_backed_operations_idempotent.2.2.2.1 envW "osbooks-college-physics-bundle"
      "m1" "medium" 5 St.empty probResW probRunW.2 rfl rfl
  · exact c3_cache_backed_operations_idempotent.2.2.2.2 envW "osbooks-college-physics-bundle"
      "m1" true St.empty nbResW nbRunW.2 rfl rfl

-- ===========================================================================
-- C6: listing filters and cache keys
-- ===========================================================================

theorem str_ext (x y : String) (h : x.data = y.data) : x = y := by
  cases x
  cases y
  exact congrArg String.mk h

theorem str_data_append (x y : String) : (x ++ y).data = x.data ++ y.data := rfl

theorem str_append_left_cancel (x y z : String) (h : x ++ y = x ++ z) : y = z := by
  have hd := congrArg String.data h
  simp only [str_data_append] at hd
  exact str_ext y z (List.append_cancel_left hd)

/-- Splitting an underscore-separated concatenation is unambiguous when
the left parts are underscore-free. -/
theorem split_underscore : ∀ (a : List Char), Char.ofNat 95 ∉ a →
    ∀ (c : List Char), Char.ofNat 95 ∉ c →
    ∀ (b d : List Char),
    a ++ Char.ofNat 95 :: b = c ++ Char.ofNat 95 :: d → a = c ∧ b = d
  | [], _, [], _, b, d, h => by simpa using h
  | [], _, c0 :: cs, hc, b, d, h => by
    simp only [List.nil_append, List.cons_append, List.cons.injEq] at h
    exact (hc (by rw [h.1]; exact List.mem_cons_self c0 cs)).elim
  | a0 :: as, ha, [], _, b, d, h => by
    simp only [List.cons_append, List.nil_append, List.cons.injEq] at h
    exact (ha (by rw [← h.1]; exact List.mem_cons_self a0 as)).elim
  | a0 :: as, ha, c0 :: cs, hc, b, d, h => by
    simp only [List.cons_append, List.cons.injEq] at h
    obtain ⟨h1, h2⟩ := h
    have hr := split_underscore as (fun hm => ha (List.mem_cons_of_mem a0 hm))
      cs (fun hm => hc (List.mem_cons_of_mem c0 hm)) b d h2
    exact ⟨by rw [h1, hr.1], hr.2⟩

/-- A listing argument that avoids the falsy and sentinel collisions of
the key scheme: either absent, or a value that is not empty, not the
sentinel `"all"`, and contains no underscore. -/
def okArg (o : Option String) : Prop :=
  match o with
  | none => True
  | some x => x ≠ "" ∧ x ≠ "all" ∧ Char.ofNat 95 ∉ x.data

theorem jsOr_all_no_underscore (o : Option String) (h : okArg o) :
    Char.ofNat 95 ∉ (jsOr o "all").data := by
  cases o with
  | none => simp only [jsOr]; decide
  | some x =>
    obtain ⟨h1, _, h3⟩ := h
    simpa [jsOr, h1] using h3

theorem jsOr_all_inj (o1 o2 : Option String) (h1 : okArg o1) (h2 : okArg o2)
    (h : jsOr o1 "all" = jsOr o2 "all") : o1 = o2 := by
  cases o1 with
  | none =>
    cases o2 with
    | none => rfl
    | some y =>
      obtain ⟨hy1, hy2, _⟩ := h2
      simp only [jsOr, hy1, if_neg hy1] at h
      exact (hy2 h.symm).elim
  | some x =>
    obtain ⟨hx1, hx2, _⟩ := h1
    cases o2 with
    | none =>
      simp only [jsOr, if_neg hx1] at h
      exact (hx2 h).elim
    | some y =>
      obtain ⟨hy1, _, _⟩ := h2
      simp only [jsOr, if_neg hx1, if_neg hy1] at h
      rw [h]

theorem listKey_inj (s1 l1 s2 l2 : Option String)
    (hs1 : okArg s1) (hl1 : okArg l1) (hs2 : okArg s2) (hl2 : okArg l2)
    (h : listKey s1 l1 = listKey s2 l2) : s1 = s2 ∧ l1 = l2 := by
  have h0 : "textbooks_list_" ++ jsOr s1 "all" ++ "_" ++ jsOr l1 "all" =
      "textbooks_list_" ++ jsOr s2 "all" ++ "_" ++ jsOr l2 "all" := h
  have hd := congrArg String.data h0
  simp only [str_data_append, List.append_assoc] at hd
  have hd2 := List.append_cancel_left hd
  have hd3 : (jsOr s1 "all").data ++ Char.ofNat 95 :: (jsOr l1 "all").data =
      (jsOr s2 "all").data ++ Char.ofNat 95 :: (jsOr l2 "all").data := by
    simpa using hd2
  obtain ⟨e1, e2⟩ := split_underscore (jsOr s1 "all").data
    (jsOr_all_no_underscore s1 hs1) (jsOr s2 "all").data
    (jsOr_all_no_underscore s2 hs2) (jsOr l1 "all").data (jsOr l2 "all").data hd3
  exact ⟨jsOr_all_inj s1 s2 hs1 hs2 (str_ext _ _ e1),
         jsOr_all_inj l1 l2 hl1 hl2 (str_ext _ _ e2)⟩

theorem listingFilter_some (s l : String) (hs : s ≠ "") (hl : l ≠ "") (t : Textbook) :
    listingFilter (some s) (some l) t =
      (strIncludes (strToLower t.name) (strToLower s) && (t.language == l)) := by
  have hbs : (s == "") = false := by simpa using hs
  have hbl : (l == "") = false := by simpa using hl
  simp [listingFilter, jsFalsy, hbs, hbl]

theorem listTextbooks_filter_semantics (env : Env) (repos : List Repo)
    (s l : String) (st : St) (v : ListResult) (st2 : St)
    (hr : env.reposResp = .ok repos)
    (hmiss : kvGet st.listingCache (listKey (some s) (some l)) = none)
    (hs : s ≠ "") (hl : l ≠ "")
    (h : listTextbooks env (some s) (some l) st = (.ok v, st2)) :
    v.textbooks = (deriveTextbooks repos).filter
      (fun t => strIncludes (strToLower t.name) (strToLower s) && (t.language == l)) ∧
    v.from_cache = false ∧
    kvGet st2.listingCache (listKey (some s) (some l)) = some v := by
  simp only [listTextbooks, hmiss, hr, Prod.mk.injEq, Except.ok.injEq] at h
  obtain ⟨h1, h2⟩ := h
  subst h1
  subst h2
  refine ⟨?_, rfl, by simpa using kvGet_put_self st.listingCache (listKey (some s) (some l)) _⟩
  have hfe : listingFilter (some s) (some l) =
      fun t => strIncludes (strToLower t.name) (strToLower s) && (t.language == l) :=
    funext (listingFilter_some s l hs hl)
  rw [hfe]

/-- C6 amended: with both arguments provided and non-empty, the listing
returns exactly the derived textbooks whose lowercased display name
contains the lowercased subject and whose inferred language equals the
language argument, and that filtered payload is what gets stored under
the filter-specific key before returning; the key
`textbooks_list_{subject or all}_{language or all}` separates distinct
(subject, language) pairs whenever each component is absent or a
non-empty, non-"all", underscore-free value — but not in general. -/
theorem c6_amended_filters_and_key_separation :
    (∀ (env : Env) (repos : List Repo) (s l : String) (st : St)
      (v : ListResult) (st2 : St),
      env.reposResp = .ok repos →
      kvGet st.listingCache (listKey (some s) (some l)) = none →
      s ≠ "" → l ≠ "" →
      listTextbooks env (some s) (some l) st = (.ok v, st2) →
      v.textbooks = (deriveTextbooks repos).filter
        (fun t => strIncludes (strToLower t.name) (strToLower s) && (t.language == l)) ∧
      v.from_cache = false ∧
      kvGet st2.listingCache (listKey (some s) (some l)) = some v) ∧
    (∀ (s1 l1 s2 l2 : Option String),
      okArg s1 → okArg l1 → okArg s2 → okArg l2 →
      listKey s1 l1 = listKey s2 l2 → s1 = s2 ∧ l1 = l2) :=
  ⟨listTextbooks_filter_semantics, listKey_inj⟩

/-- C6 counterexample: two distinct provided (subject, language) argument
pairs share one cache key, refuting the claimed per-combination key
distinctness. -/
theorem c6_distinct_filter_pairs_share_key :
    listKey (some "a") (some "b_c") = listKey (some "a_b") (some "c") ∧
    ((some "a", some "b_c") : Option String × Option String) ≠ (some "a_b", some "c") := by
  constructor
  · rfl
  · decide

/-- Two-repository environment for the filter witness: one Spanish
physics book (`fisica`), one English physics book. -/
def envFilter : Env where
  reposResp := .ok [⟨"osbooks-fisica-universitaria-bundle",
      "https://github.com/openstax/osbooks-fisica-universitaria-bundle",
      none, "2024-01-01T00:00:00Z", 1⟩,
    ⟨"osbooks-college-physics-bundle",
      "https://github.com/openstax/osbooks-college-physics-bundle",
      none, "2024-01-01T00:00:00Z", 2⟩]
  collectionsDir := fun _ => .error "down"
  collectionParse := fun _ => .error "bad xml"
  moduleRaw := fun _ _ => none
  docParse := fun _ => .error "bad xml"
  mediaDir := fun _ _ => none
  aiChat := fun _ => .error "model down"
  aiEmbed := fun _ => .error "model down"
  vectorQuery := fun _ _ _ _ => []

def filterRunW : Except String ListResult × St :=
  listTextbooks envFilter (some "fisica") (some "es") St.empty

def filterResW : ListResult :=
  match filterRunW.1 with
  | .ok v => v
  | .error _ => ⟨[], 0, true⟩

theorem c6_amended_filters_and_key_separation_witness :
    (filterResW.textbooks =
      (deriveTextbooks [⟨"osbooks-fisica-universitaria-bundle",
          "https://github.com/openstax/osbooks-fisica-universitaria-bundle",
          none, "2024-01-01T00:00:00Z", 1⟩,
        ⟨"osbooks-college-physics-bundle",
          "https://github.com/openstax/osbooks-college-physics-bundle",
          none, "2024-01-01T00:00:00Z", 2⟩]).filter
        (fun t => strIncludes (strToLower t.name) (strToLower "fisica") &&
          (t.language == "es")) ∧
      filterResW.from_cache = false ∧
      kvGet filterRunW.2.listingCache (listKey (some "fisica") (some "es")) =
        some filterResW) ∧
    ((some "physics" : Option String) = some "physics" ∧
      (some "es" : Option String) = some "es") := by
  constructor
  · exact c6_amended_filters_and_key_separation.1 envFilter _ "fisica" "es" St.empty
      filterResW filterRunW.2 rfl rfl (by decide) (by decide) rfl
  · exact c6_amended_filters_and_key_separation.2 (some "physics") (some "es")
      (some "physics") (some "es") ⟨by decide, by decide, by decide⟩
      ⟨by decide, by decide, by decide⟩ ⟨by decide, by decide, by decide⟩
      ⟨by decide, by decide, by decide⟩ rfl

-- ===========================================================================
-- C4: best-effort indexing counts
-- ===========================================================================

/-- Whether one modules resolve-embed-upsert sequence succeeds against
the environment (fresh resolution, imageless, embedding of the composite
snippet). -/
def succOne (env : Env) (tb : String) (m : ModuleRef) : Bool :=
  match fetchModule env tb m.id false with
  | .error _ => false
  | .ok mc => (env.aiEmbed (m.title ++ " " ++ strTake mc.content 1000)).isOk

theorem indexOne_spec (env : Env) (tb : String) (m : ModuleRef) (st : St)
    (hmiss : kvGet st.moduleCache ("module_" ++ tb ++ "_" ++ m.id) = none) :
    (indexOne env tb m st).1 = succOne env tb m ∧
    (∀ k2, k2 ≠ "module_" ++ tb ++ "_" ++ m.id →
      kvGet (indexOne env tb m st).2.moduleCache k2 = kvGet st.moduleCache k2) := by
  cases hf : fetchModule env tb m.id false with
  | error e =>
    constructor
    · simp only [indexOne, getModuleContent, hmiss, hf, succOne]
    · intro k2 hk
      simp only [indexOne, getModuleContent, hmiss, hf]
  | ok mc =>
    cases he : env.aiEmbed (m.title ++ " " ++ strTake mc.content 1000) with
    | error e =>
      constructor
      · simp only [indexOne, getModuleContent, hmiss, hf, he, succOne, Except.isOk,
          Except.toBool]
      · intro k2 hk
        simp only [indexOne, getModuleContent, hmiss, hf, he]
        exact kvGet_put_ne st.moduleCache ("module_" ++ tb ++ "_" ++ m.id) k2 mc hk
    | ok emb =>
      constructor
      · simp only [indexOne, getModuleContent, hmiss, hf, he, succOne, Except.isOk,
          Except.toBool]
      · intro k2 hk
        simp only [indexOne, getModuleContent, hmiss, hf, he]
        exact kvGet_put_ne st.moduleCache ("module_" ++ tb ++ "_" ++ m.id) k2 mc hk

theorem indexLoop_count (env : Env) (tb : String) (ms : List ModuleRef) :
    ∀ (n : Nat) (st : St),
    (∀ m ∈ ms, kvGet st.moduleCache ("module_" ++ tb ++ "_" ++ m.id) = none) →
    (ms.map ModuleRef.id).Nodup →
    (indexLoop env tb ms n st).1 = n + ms.countP (fun m => succOne env tb m) := by
  induction ms with
  | nil =>
    intro n st _ _
    simp [indexLoop]
  | cons m ms ih =>
    intro n st hmiss hnd
    have hm0 : kvGet st.moduleCache ("module_" ++ tb ++ "_" ++ m.id) = none :=
      hmiss m (List.mem_cons_self m ms)
    obtain ⟨hfst, hpres⟩ := indexOne_spec env tb m st hm0
    have hnd2 : (m.id :: ms.map ModuleRef.id).Nodup := by
      rw [List.map_cons] at hnd
      exact hnd
    have hsplit := List.nodup_cons.mp hnd2
    have hmiss2 : ∀ m2 ∈ ms,
        kvGet (indexOne env tb m st).2.moduleCache ("module_" ++ tb ++ "_" ++ m2.id) = none := by
      intro m2 hm2
      rw [hpres ("module_" ++ tb ++ "_" ++ m2.id) ?_]
      · exact hmiss m2 (List.mem_cons_of_mem m hm2)
      · intro he
        have hide : m2.id = m.id := str_append_left_cancel ("module_" ++ tb ++ "_") m2.id m.id he
        exact hsplit.1 (hide ▸ List.mem_map_of_mem ModuleRef.id hm2)
    simp only [indexLoop]
    rw [ih _ _ hmiss2 hsplit.2, hfst]
    cases hs : succOne env tb m <;> simp [List.countP_cons, hs] <;> omega

/-- C4 amended: after a successful structure resolution the indexing call
never raises; it attempts the first `max_modules` modules of the
structure, counts as `indexed` exactly the attempted modules whose
resolve-embed-upsert sequence succeeds, and reports as `total_modules`
the full module count of the structure — not the number attempted.
(Stated for attempted module lists with distinct ids and no pre-existing
module-cache entries, so per-module success is the environment predicate
`succOne`.) -/
theorem c4_amended_indexing_counts :
    ∀ (env : Env) (tb : String) (k : Nat) (st : St) (sp : StructResult) (st1 : St),
    getTextbookStructure env tb st = (.ok sp, st1) →
    (∀ m ∈ sp.modules.take k,
      kvGet st1.moduleCache ("module_" ++ tb ++ "_" ++ m.id) = none) →
    ((sp.modules.take k).map ModuleRef.id).Nodup →
    (indexTextbookForSearch env tb k st).1 =
      .ok ⟨(sp.modules.take k).countP (fun m => succOne env tb m),
           sp.modules.length, tb,
           "Successfully indexed " ++
             toString ((sp.modules.take k).countP (fun m => succOne env tb m)) ++
             " modules for semantic search"⟩ := by
  intro env tb k st sp st1 hst hmiss hnd
  have hloop := indexLoop_count env tb (sp.modules.take k) 0 st1 hmiss hnd
  simp only [indexTextbookForSearch, hst, hloop, Nat.zero_add]

/-- A three-module collection whose second module is unresolvable. -/
def envIdx : Env where
  reposResp := .error "unused"
  collectionsDir := fun _ => .ok [⟨"b.collection.xml", "https://dl.example/b.xml"⟩]
  collectionParse := fun _ => .ok ⟨["B"], [],
    [.node [⟨some "m1", ["T1"]⟩, ⟨some "m2", ["T2"]⟩, ⟨some "m3", ["T3"]⟩] []]⟩
  moduleRaw := fun _ mid => if mid = "m2" then none else some "<document/>"
  docParse := fun _ => .ok ⟨["T"], [.obj [] (some "body")]⟩
  mediaDir := fun _ _ => none
  aiChat := fun _ => .error "unused"
  aiEmbed := fun _ => .ok [1]
  vectorQuery := fun _ _ _ _ => []

/-- C4 counterexample: with 3 resolvable-or-not modules and
`max_modules = 1`, exactly 1 module is attempted (and succeeds), yet the
returned `total_modules` is 3, the structures full module count — not
the number of modules attempted. -/
theorem c4_total_is_structure_count_not_attempted :
    (indexTextbookForSearch envIdx "tb" 1 St.empty).1 =
      .ok ⟨1, 3, "tb", "Successfully indexed 1 modules for semantic search"⟩ ∧
    (List.take 1 (extractModules ⟨["B"], [],
      [.node [⟨some "m1", ["T1"]⟩, ⟨some "m2", ["T2"]⟩, ⟨some "m3", ["T3"]⟩] []]⟩)).length
      = 1 ∧
    (3 : Nat) ≠ 1 := by
  refine ⟨rfl, rfl, by decide⟩

def idxStructRunW : Except String StructResult × St :=
  getTextbookStructure envIdx "tb" St.empty

def idxStructResW : StructResult :=
  match idxStructRunW.1 with
  | .ok v => v
  | .error _ => ⟨"", [], none, true⟩

theorem c4_amended_indexing_counts_witness :
    (indexTextbookForSearch envIdx "tb" 20 St.empty).1 =
      .ok ⟨2, 3, "tb", "Successfully indexed 2 modules for semantic search"⟩ := by
  rw [c4_amended_indexing_counts envIdx "tb" 20 St.empty idxStructResW idxStructRunW.2
    rfl (by decide) (by decide)]
  rfl

end OpenStaxMCP
